import Mathlib

/-!
Shallow embedding of `src/prusalink_api/printer.py` (class `PrusaLinkPrinter`
of the dorable-prusalink-api repository).

The HTTP transport (`requests`) is external; each method that performs a
round trip takes the remote's reply as an explicit `HttpResult` argument
(`err` = transport error raising `requests.exceptions.RequestException`,
`ok r` = a reply with a status code, a Content-Type header, raw body bytes
and the parsed JSON body).  `response.raise_for_status()` raises exactly
when the status code is at least 400.  The adapter's per-instance caches
(`_last_status_data`, `_last_job_data`, `_last_info_data`) are threaded as
an explicit `AdapterState`.  Python exceptions that escape a method are
modelled by the `PyResult.exn` constructor; HTTP requests issued by a
method are returned as an explicit `Request` list where a claim depends
on them.
-/

set_option maxHeartbeats 1000000
set_option linter.unusedVariables false

/-- Parsed JSON values, as produced by `response.json()`. -/
inductive Json where
  | null
  | bool (b : Bool)
  | num (q : Rat)
  | str (s : String)
  | arr (elems : List Json)
  | obj (fields : List (String × Json))

/-- Kinds of Python exception that the modelled methods can raise. -/
inductive ExnKind where
  | valueError
  | typeError
  | attributeError
  | notImplementedError
  | decodeError
  deriving DecidableEq

/-- Outcome of a Python call: a returned value, or a raised exception. -/
inductive PyResult (α : Type) where
  | ok (a : α)
  | exn (e : ExnKind)
  deriving DecidableEq

/-- Python truthiness (`if x:`) on JSON values: `None`, `False`, `0`,
empty string, empty list and empty dict are falsy. -/
def pyTruthy : Json → Bool
  | .null => false
  | .bool b => b
  | .num q => !(q == 0)
  | .str s => !(s == "")
  | .arr xs => !xs.isEmpty
  | .obj fields => !fields.isEmpty

/-- Raw key lookup on a JSON object (`d[k]` after a `k in d` guard).
JSON objects have unique keys, so first-match lookup is exact. -/
def Json.lookup : Json → String → Option Json
  | .obj fields, k => fields.lookup k
  | _, _ => none

/-- Python `k in d` for the JSON documents the API serves (objects).
`in` on non-dict values behaves differently in Python (substring test or
`TypeError`); the documents this adapter consumes are objects, and the
theorems below only apply `hasKey` to objects or to values guarded by it. -/
def Json.hasKey (j : Json) (k : String) : Bool :=
  (j.lookup k).isSome

/-- `d[k]` where the key is known present (used only after `hasKey`). -/
def Json.lookupD (j : Json) (k : String) : Json :=
  (j.lookup k).getD .null

/-- Python `x == "s"` where `x` is an arbitrary JSON value: true exactly
for the equal string (comparison with a non-string is `False`, no error). -/
def Json.isStr : Json → String → Bool
  | .str t, s => t == s
  | _, _ => false

/-- Python `d.get(k)` on a JSON value.  On a dict it returns the value
(with JSON `null`, i.e. Python `None`, collapsed to absence, since
`.get` of a null field and of a missing field both give `None`); on any
non-dict value `.get` raises `AttributeError`. -/
def pyDictGet : Json → String → PyResult (Option Json)
  | .obj fields, k =>
      match fields.lookup k with
      | some .null => .ok none
      | some v => .ok (some v)
      | none => .ok none
  | _, _ => .exn .attributeError

/-- Truncation of a rational toward zero, the behaviour of Python
`int(x)` on a float: `Int.div` is T-division. -/
def ratTrunc (q : Rat) : Int :=
  Int.tdiv q.num q.den

/-- Python `int(x)` on a JSON value.  Floats truncate toward zero,
booleans give 0/1; other types raise (`int` of a decimal-literal string
also succeeds in Python, but the API's numeric fields are numbers, so
string parsing is not modelled). -/
def pyInt : Json → PyResult Int
  | .num q => .ok (ratTrunc q)
  | .bool b => .ok (if b then 1 else 0)
  | _ => .exn .typeError

/-- Python `float(x)` on a JSON value, same caveats as `pyInt`. -/
def pyFloat : Json → PyResult Rat
  | .num q => .ok q
  | .bool b => .ok (if b then 1 else 0)
  | _ => .exn .typeError

/-- Python `str(x)` for the scalar JSON values used as job identifiers.
The rendering of floats and containers is not modelled (job ids are
integers or strings); only the scalar cases are exercised by theorems. -/
def pyStr : Json → String
  | .str s => s
  | .num q => if q.den = 1 then toString q.num else toString q.num ++ "/" ++ toString q.den
  | .bool b => if b then "True" else "False"
  | .null => "None"
  | .arr _ => ""
  | .obj _ => ""

/-- The G-code state enumeration of the external `dorable_3dprinter_api`
contract (the values this adapter uses). -/
inductive GcodeState where
  | RUNNING
  | PAUSE
  | FINISH
  | FAILED
  | IDLE
  | PREPARE
  | UNKNOWN
  deriving DecidableEq

/-- The print-state enumeration of the external contract (the values this
adapter uses). -/
inductive PrintState where
  | PRINTING
  | PAUSED_USER
  | IDLE
  | UNKNOWN
  deriving DecidableEq

/-- The nozzle-type enumeration of the external contract. -/
inductive NozzleType where
  | STAINLESS_STEEL
  | HARDENED_STEEL
  deriving DecidableEq

/-- An HTTP reply: status code, Content-Type header, raw body bytes and
the parsed JSON body (the fetch helpers only call `response.json()` on
replies whose body parses; `content` carries the raw bytes used by the
camera endpoint and `base64.b64encode`). -/
structure HttpResponse where
  status : Nat
  contentType : String
  content : List Nat
  body : Json

/-- Outcome of one `requests` round trip: a transport error (raising
`requests.exceptions.RequestException`) or a reply. -/
inductive HttpResult where
  | err
  | ok (r : HttpResponse)

/-- HTTP method of an issued request. -/
inductive Method where
  | get
  | put
  | post
  | delete
  deriving DecidableEq

/-- An HTTP request issued by the adapter (path relative to the host,
plus the per-request headers beyond the constant `X-Api-Key`). -/
structure Request where
  method : Method
  path : String
  headers : List (String × String)
  deriving DecidableEq

/-- The adapter's mutable per-instance caches:
`_last_status_data`, `_last_job_data`, `_last_info_data`. -/
structure AdapterState where
  lastStatus : Option Json
  lastJob : Option Json
  lastInfo : Option Json

/-- `_fetch_status_data`: GET `/api/v1/status`; `raise_for_status` then
cache and return the parsed body; any `RequestException` is caught and
`None` is returned with the cache untouched. -/
def fetch_status_data (st : AdapterState) (resp : HttpResult) :
    Option Json × AdapterState :=
  match resp with
  | .err => (none, st)
  | .ok r =>
      if 400 ≤ r.status then (none, st)
      else (some r.body, { st with lastStatus := some r.body })

/-- `_fetch_job_data`: GET `/api/v1/job`; PrusaLink replies 204 No Content
when no job is active, in which case the cache is set to `None` and `None`
is returned; otherwise the parsed body is cached and returned; any
`RequestException` is caught and `None` is returned, cache untouched. -/
def fetch_job_data (st : AdapterState) (resp : HttpResult) :
    Option Json × AdapterState :=
  match resp with
  | .err => (none, st)
  | .ok r =>
      if 400 ≤ r.status then (none, st)
      else if r.status == 204 then (none, { st with lastJob := none })
      else (some r.body, { st with lastJob := some r.body })

/-- `_fetch_info_data`: GET `/api/v1/info`, same shape as the status fetch. -/
def fetch_info_data (st : AdapterState) (resp : HttpResult) :
    Option Json × AdapterState :=
  match resp with
  | .err => (none, st)
  | .ok r =>
      if 400 ≤ r.status then (none, st)
      else (some r.body, { st with lastInfo := some r.body })

/-- The field-extraction part of `get_state`: map the fetched status
document to a `GcodeState` following the source's if/elif chain. -/
def gcodeStateFrom : Option Json → PyResult GcodeState
  | none => .ok .UNKNOWN
  | some sd =>
      if pyTruthy sd && sd.hasKey "printer" then
        match pyDictGet (sd.lookupD "printer") "state" with
        | .exn e => .exn e
        | .ok stateOpt =>
            let state := stateOpt.getD .null
            if pyTruthy state then
              if state.isStr "PRINTING" then .ok .RUNNING
              else if state.isStr "PAUSED" then .ok .PAUSE
              else if state.isStr "FINISHED" then .ok .FINISH
              else if state.isStr "STOPPED" then .ok .FAILED
              else if state.isStr "IDLE" then .ok .IDLE
              else if state.isStr "BUSY" || state.isStr "ATTENTION" || state.isStr "READY" then .ok .PREPARE
              else if state.isStr "ERROR" then .ok .FAILED
              else .ok .UNKNOWN
            else .ok .UNKNOWN
      else .ok .UNKNOWN

/-- The field-extraction part of `get_current_state`: map the fetched
status document to a `PrintState` following the source's if/elif chain. -/
def printStateFrom : Option Json → PyResult PrintState
  | none => .ok .UNKNOWN
  | some sd =>
      if pyTruthy sd && sd.hasKey "printer" then
        match pyDictGet (sd.lookupD "printer") "state" with
        | .exn e => .exn e
        | .ok stateOpt =>
            let state := stateOpt.getD .null
            if pyTruthy state then
              if state.isStr "PRINTING" then .ok .PRINTING
              else if state.isStr "PAUSED" then .ok .PAUSED_USER
              else if state.isStr "FINISHED" then .ok .IDLE
              else if state.isStr "STOPPED" then .ok .IDLE
              else if state.isStr "ERROR" then .ok .UNKNOWN
              else if state.isStr "IDLE" then .ok .IDLE
              else if state.isStr "BUSY" then .ok .UNKNOWN
              else if state.isStr "ATTENTION" then .ok .UNKNOWN
              else if state.isStr "READY" then .ok .IDLE
              else .ok .UNKNOWN
            else .ok .UNKNOWN
      else .ok .UNKNOWN

/-- `get_state`: fetch the status document and map its state string. -/
def get_state (st : AdapterState) (resp : HttpResult) :
    PyResult GcodeState × AdapterState :=
  let r := fetch_status_data st resp
  (gcodeStateFrom r.1, r.2)

/-- `get_current_state`: fetch the status document and map its state string. -/
def get_current_state (st : AdapterState) (resp : HttpResult) :
    PyResult PrintState × AdapterState :=
  let r := fetch_status_data st resp
  (printStateFrom r.1, r.2)

/-- A 200 reply whose body is the given JSON document (the shape of a
successful status/info fetch). -/
def statusResp (j : Json) : HttpResult :=
  .ok { status := 200, contentType := "application/json", content := [], body := j }

/-- A status document whose `printer.state` field is the given string. -/
def stateDoc (s : String) : Json :=
  .obj [("printer", .obj [("state", .str s)])]
/-- The field-extraction part of `get_percentage`: if the status document
is truthy, has a truthy `job` member, and that member has a non-`None`
`progress` field, return `int(progress)`; otherwise `None`. -/
def percentageFrom : Option Json → PyResult (Option Int)
  | none => .ok none
  | some sd =>
      if pyTruthy sd && sd.hasKey "job" && pyTruthy (sd.lookupD "job") then
        match pyDictGet (sd.lookupD "job") "progress" with
        | .exn e => .exn e
        | .ok none => .ok none
        | .ok (some v) =>
            match pyInt v with
            | .ok i => .ok (some i)
            | .exn e => .exn e
      else .ok none

/-- The field-extraction part of `get_time`: `job.time_remaining` of the
status document, or `None`. -/
def timeFrom : Option Json → PyResult (Option Json)
  | none => .ok none
  | some sd =>
      if pyTruthy sd && sd.hasKey "job" && pyTruthy (sd.lookupD "job") then
        pyDictGet (sd.lookupD "job") "time_remaining"
      else .ok none

/-- The field-extraction part of `get_bed_temperature`:
`printer.temp_bed` of the status document, or `None`. -/
def bedTempFrom : Option Json → PyResult (Option Json)
  | none => .ok none
  | some sd =>
      if pyTruthy sd && sd.hasKey "printer" then
        pyDictGet (sd.lookupD "printer") "temp_bed"
      else .ok none

/-- The field-extraction part of `get_nozzle_temperature`:
`printer.temp_nozzle` of the status document, or `None`. -/
def nozzleTempFrom : Option Json → PyResult (Option Json)
  | none => .ok none
  | some sd =>
      if pyTruthy sd && sd.hasKey "printer" then
        pyDictGet (sd.lookupD "printer") "temp_nozzle"
      else .ok none

/-- The field-extraction part of `get_print_speed`: `int(printer.speed)`
of the status document when the field is not `None`, else 0. -/
def printSpeedFrom : Option Json → PyResult Int
  | none => .ok 0
  | some sd =>
      if pyTruthy sd && sd.hasKey "printer" then
        match pyDictGet (sd.lookupD "printer") "speed" with
        | .exn e => .exn e
        | .ok none => .ok 0
        | .ok (some v) => pyInt v
      else .ok 0

/-- The field-extraction part of `nozzle_diameter`:
`float(info.nozzle_diameter)` when present, else 0.0. -/
def nozzleDiameterFrom : Option Json → PyResult Rat
  | none => .ok 0
  | some info =>
      if pyTruthy info then
        match pyDictGet info "nozzle_diameter" with
        | .exn e => .exn e
        | .ok none => .ok 0
        | .ok (some v) => pyFloat v
      else .ok 0

/-- `get_percentage`: fetch the status document and extract the progress. -/
def get_percentage (st : AdapterState) (resp : HttpResult) :
    PyResult (Option Int) × AdapterState :=
  let r := fetch_status_data st resp
  (percentageFrom r.1, r.2)

/-- `get_time`: fetch the status document and extract the remaining time. -/
def get_time (st : AdapterState) (resp : HttpResult) :
    PyResult (Option Json) × AdapterState :=
  let r := fetch_status_data st resp
  (timeFrom r.1, r.2)

/-- `get_bed_temperature`: fetch the status document and extract the bed
temperature. -/
def get_bed_temperature (st : AdapterState) (resp : HttpResult) :
    PyResult (Option Json) × AdapterState :=
  let r := fetch_status_data st resp
  (bedTempFrom r.1, r.2)

/-- `get_nozzle_temperature`: fetch the status document and extract the
nozzle temperature. -/
def get_nozzle_temperature (st : AdapterState) (resp : HttpResult) :
    PyResult (Option Json) × AdapterState :=
  let r := fetch_status_data st resp
  (nozzleTempFrom r.1, r.2)

/-- `get_print_speed`: fetch the status document and extract the speed. -/
def get_print_speed (st : AdapterState) (resp : HttpResult) :
    PyResult Int × AdapterState :=
  let r := fetch_status_data st resp
  (printSpeedFrom r.1, r.2)

/-- `nozzle_diameter`: fetch the info document and extract the diameter. -/
def nozzle_diameter (st : AdapterState) (resp : HttpResult) :
    PyResult Rat × AdapterState :=
  let r := fetch_info_data st resp
  (nozzleDiameterFrom r.1, r.2)

/-- `nozzle_type`: the source logs a message and returns
`NozzleType.STAINLESS_STEEL` unconditionally, issuing no HTTP request. -/
def nozzle_type (st : AdapterState) :
    PyResult NozzleType × AdapterState × List Request :=
  (.ok NozzleType.STAINLESS_STEEL, st, [])

/-- The GET issued against `/api/v1/job` by the job fetch. -/
def jobGetReq : Request :=
  { method := .get, path := "/api/v1/job", headers := [] }

/-- `stop_print`: fetch the job; if it is truthy and has an `id`, issue
DELETE `/api/v1/job/{id}` and succeed exactly on a 204 reply; otherwise
return `False` without issuing the action request.  The returned list is
every HTTP request the method issues, in order. -/
def stop_print (st : AdapterState) (jobResp actionResp : HttpResult) :
    Bool × AdapterState × List Request :=
  let fr := fetch_job_data st jobResp
  match fr.1 with
  | some jobData =>
      if pyTruthy jobData && jobData.hasKey "id" then
        let req : Request :=
          { method := .delete,
            path := "/api/v1/job/" ++ pyStr (jobData.lookupD "id"),
            headers := [] }
        match actionResp with
        | .err => (false, fr.2, [jobGetReq, req])
        | .ok r =>
            if 400 ≤ r.status then (false, fr.2, [jobGetReq, req])
            else (r.status == 204, fr.2, [jobGetReq, req])
      else (false, fr.2, [jobGetReq])
  | none => (false, fr.2, [jobGetReq])

/-- `pause_print`: like `stop_print` with PUT `/api/v1/job/{id}/pause`. -/
def pause_print (st : AdapterState) (jobResp actionResp : HttpResult) :
    Bool × AdapterState × List Request :=
  let fr := fetch_job_data st jobResp
  match fr.1 with
  | some jobData =>
      if pyTruthy jobData && jobData.hasKey "id" then
        let req : Request :=
          { method := .put,
            path := "/api/v1/job/" ++ pyStr (jobData.lookupD "id") ++ "/pause",
            headers := [] }
        match actionResp with
        | .err => (false, fr.2, [jobGetReq, req])
        | .ok r =>
            if 400 ≤ r.status then (false, fr.2, [jobGetReq, req])
            else (r.status == 204, fr.2, [jobGetReq, req])
      else (false, fr.2, [jobGetReq])
  | none => (false, fr.2, [jobGetReq])

/-- `resume_print`: like `stop_print` with PUT `/api/v1/job/{id}/resume`. -/
def resume_print (st : AdapterState) (jobResp actionResp : HttpResult) :
    Bool × AdapterState × List Request :=
  let fr := fetch_job_data st jobResp
  match fr.1 with
  | some jobData =>
      if pyTruthy jobData && jobData.hasKey "id" then
        let req : Request :=
          { method := .put,
            path := "/api/v1/job/" ++ pyStr (jobData.lookupD "id") ++ "/resume",
            headers := [] }
        match actionResp with
        | .err => (false, fr.2, [jobGetReq, req])
        | .ok r =>
            if 400 ≤ r.status then (false, fr.2, [jobGetReq, req])
            else (r.status == 204, fr.2, [jobGetReq, req])
      else (false, fr.2, [jobGetReq])
  | none => (false, fr.2, [jobGetReq])

/-- `upload_file`: one PUT of the raw bytes to
`/api/v1/files/usb/{filename}` with explicit Content-Length and
octet-stream Content-Type headers; a 201 reply yields `/usb/{filename}`,
any other reply or a transport error yields the empty string.  The file
argument is the bytes `file.read()` produced. -/
def upload_file (fileContent : List Nat) (filename : String)
    (resp : HttpResult) : String × List Request :=
  let req : Request :=
    { method := .put,
      path := "/api/v1/files/usb/" ++ filename,
      headers := [("Content-Length", toString fileContent.length),
                  ("Content-Type", "application/octet-stream")] }
  match resp with
  | .err => ("", [req])
  | .ok r =>
      if 400 ≤ r.status then ("", [req])
      else if r.status == 201 then ("/usb/" ++ filename, [req])
      else ("", [req])

/-- Whether the first character list is a leading segment of the second. -/
def leadsList : List Char → List Char → Bool
  | [], _ => true
  | _ :: _, [] => false
  | a :: as, b :: bs => a == b && leadsList as bs

/-- Whether the first character list occurs as a contiguous segment of
the second. -/
def occursIn (needle : List Char) : List Char → Bool
  | [] => leadsList needle []
  | c :: t => leadsList needle (c :: t) || occursIn needle t

/-- Python `needle in hay` on strings: substring containment. -/
def strContains (hay needle : String) : Bool :=
  occursIn needle.toList hay.toList

/-- The base64 alphabet used by `base64.b64encode`. -/
def b64Alphabet : List Char :=
  "ABCDEFGHIJKLMNOPQRSTUVWXYZabcdefghijklmnopqrstuvwxyz0123456789+/".toList

/-- The base64 digit for a 6-bit value. -/
def b64Char (n : Nat) : Char :=
  b64Alphabet.getD n 'A'

/-- Standard base64 of a byte list, 3 bytes to 4 digits with `=` padding
(the behaviour of `base64.b64encode(...).decode('utf-8')`). -/
def b64EncodeChunks : List Nat → List Char
  | [] => []
  | [a] => [b64Char (a / 4), b64Char (a % 4 * 16), '=', '=']
  | [a, b] => [b64Char (a / 4), b64Char (a % 4 * 16 + b / 16), b64Char (b % 16 * 4), '=']
  | a :: b :: c :: rest =>
      b64Char (a / 4) :: b64Char (a % 4 * 16 + b / 16) ::
      b64Char (b % 16 * 4 + c / 64) :: b64Char (c % 64) :: b64EncodeChunks rest

/-- `base64.b64encode(content).decode('utf-8')` as a string. -/
def b64encode (content : List Nat) : String :=
  String.mk (b64EncodeChunks content)

/-- `get_camera_frame`: GET `/api/v1/cameras/snap`; after
`raise_for_status`, require status 200 and `'image/png' in Content-Type`
and return the base64 encoding of the raw body; every failure (transport
error, status at least 400, wrong status, wrong content type) returns the
empty string. -/
def get_camera_frame (resp : HttpResult) : String :=
  match resp with
  | .err => ""
  | .ok r =>
      if 400 ≤ r.status then ""
      else if r.status == 200 && strContains r.contentType "image/png" then
        b64encode r.content
      else ""

/-- `get_camera_image`: call `get_camera_frame`; on a truthy (non-empty)
frame, decode it into a PIL image, re-raising any decode failure; on an
empty frame raise `ValueError` ("No camera frame available or failed to
retrieve.").  Base64 decoding plus `Image.open` is the external `decode`
argument, `none` meaning it raises. -/
def get_camera_image {α : Type} (resp : HttpResult)
    (decode : String → Option α) : PyResult α :=
  let frame := get_camera_frame resp
  if !(frame == "") then
    match decode frame with
    | some img => .ok img
    | none => .exn .decodeError
  else .exn .valueError

/-- Capability-gap stub `set_part_fan_speed`: logs and returns `False`. -/
def set_part_fan_speed (speed : Rat) : PyResult Bool := .ok false

/-- Capability-gap stub `set_aux_fan_speed`: logs and returns `False`. -/
def set_aux_fan_speed (speed : Rat) : PyResult Bool := .ok false

/-- Capability-gap stub `set_chamber_fan_speed`: logs and returns `False`. -/
def set_chamber_fan_speed (speed : Rat) : PyResult Bool := .ok false

/-- Capability-gap stub `move_z_axis`: logs and returns `False`. -/
def move_z_axis (height : Int) : PyResult Bool := .ok false

/-- Capability-gap stub `skip_objects`: logs and returns `False`. -/
def skip_objects (obj_list : List Int) : PyResult Bool := .ok false

/-- Capability-gap stub `gcode`: logs and returns `False` (the command
argument is a string or a list of strings). -/
def gcode (g : String ⊕ List String) (gcode_check : Bool) : PyResult Bool := .ok false

/-- Capability-gap stub `set_bed_temperature`: logs and returns `False`. -/
def set_bed_temperature (temperature : Int) : PyResult Bool := .ok false

/-- Capability-gap stub `set_nozzle_temperature`: logs and returns `False`. -/
def set_nozzle_temperature (temperature : Int) : PyResult Bool := .ok false

/-- Capability-gap stub `set_print_speed`: logs and returns `False`. -/
def set_print_speed (speed_lvl : Int) : PyResult Bool := .ok false

/-- Capability-gap stub `calibrate_printer`: logs and returns `False`. -/
def calibrate_printer (bed_level motor_noise_calibration vibration_compensation : Bool) :
    PyResult Bool := .ok false

/-- Capability-gap stub `turn_light_on`: logs and returns `False`. -/
def turn_light_on : PyResult Bool := .ok false

/-- Capability-gap stub `turn_light_off`: logs and returns `False`. -/
def turn_light_off : PyResult Bool := .ok false

/-- Capability-gap stub `get_skipped_objects`: logs and returns `[]`. -/
def get_skipped_objects : PyResult (List Int) := .ok []

/-- Capability-gap stub `get_light_state`: logs and returns "Unknown". -/
def get_light_state : PyResult String := .ok "Unknown"

/-- Capability-gap stub `print_type`: logs and returns "Unknown". -/
def print_type : PyResult String := .ok "Unknown"

/-- Capability-gap stub `wifi_signal`: logs and returns "Unknown". -/
def wifi_signal : PyResult String := .ok "Unknown"

/-- Capability-gap stub `current_layer_num`: logs and returns 0. -/
def current_layer_num : PyResult Int := .ok 0

/-- Capability-gap stub `total_layer_num`: logs and returns 0. -/
def total_layer_num : PyResult Int := .ok 0

/-- Capability-gap stub `print_error_code`: logs and returns 0. -/
def print_error_code : PyResult Int := .ok 0

/-- `vt_tray`: logs and raises `NotImplementedError` (it never constructs
an `IFilamentTray`, so the value type is irrelevant). -/
def vt_tray : PyResult Unit := .exn .notImplementedError

/-- `ams_hub`: logs and raises `NotImplementedError`. -/
def ams_hub : PyResult Unit := .exn .notImplementedError

/-- A status document whose `job.progress` field is the given number. -/
def progressDoc (q : Rat) : Json :=
  .obj [("job", .obj [("progress", .num q), ("time_remaining", .num 5520)])]

/-! ## Theorems -/

/-- C1: for each of the nine concrete device-state strings in the spec's
mapping table, `get_state` returns exactly the tabulated `GcodeState`
(PRINTING→RUNNING, PAUSED→PAUSE, FINISHED→FINISH, STOPPED→FAILED,
ERROR→FAILED, IDLE→IDLE, READY→PREPARE, BUSY→PREPARE, ATTENTION→PREPARE)
and `get_current_state` returns exactly the tabulated `PrintState`
(PRINTING→PRINTING, PAUSED→PAUSED_USER, FINISHED→IDLE, STOPPED→IDLE,
ERROR→UNKNOWN, IDLE→IDLE, READY→IDLE, BUSY→UNKNOWN, ATTENTION→UNKNOWN);
for any other state string, for an absent state field or absent printer
object, and for a failed status fetch, both return their UNKNOWN value. -/
theorem state_mapping_spec (st : AdapterState) (s : String)
    (h1 : s ≠ "PRINTING") (h2 : s ≠ "PAUSED") (h3 : s ≠ "FINISHED")
    (h4 : s ≠ "STOPPED") (h5 : s ≠ "ERROR") (h6 : s ≠ "IDLE")
    (h7 : s ≠ "READY") (h8 : s ≠ "BUSY") (h9 : s ≠ "ATTENTION") :
    ((get_state st (statusResp (stateDoc "PRINTING"))).1 = .ok .RUNNING ∧
     (get_state st (statusResp (stateDoc "PAUSED"))).1 = .ok .PAUSE ∧
     (get_state st (statusResp (stateDoc "FINISHED"))).1 = .ok .FINISH ∧
     (get_state st (statusResp (stateDoc "STOPPED"))).1 = .ok .FAILED ∧
     (get_state st (statusResp (stateDoc "ERROR"))).1 = .ok .FAILED ∧
     (get_state st (statusResp (stateDoc "IDLE"))).1 = .ok .IDLE ∧
     (get_state st (statusResp (stateDoc "READY"))).1 = .ok .PREPARE ∧
     (get_state st (statusResp (stateDoc "BUSY"))).1 = .ok .PREPARE ∧
     (get_state st (statusResp (stateDoc "ATTENTION"))).1 = .ok .PREPARE) ∧
    ((get_current_state st (statusResp (stateDoc "PRINTING"))).1 = .ok .PRINTING ∧
     (get_current_state st (statusResp (stateDoc "PAUSED"))).1 = .ok .PAUSED_USER ∧
     (get_current_state st (statusResp (stateDoc "FINISHED"))).1 = .ok .IDLE ∧
     (get_current_state st (statusResp (stateDoc "STOPPED"))).1 = .ok .IDLE ∧
     (get_current_state st (statusResp (stateDoc "ERROR"))).1 = .ok .UNKNOWN ∧
     (get_current_state st (statusResp (stateDoc "IDLE"))).1 = .ok .IDLE ∧
     (get_current_state st (statusResp (stateDoc "READY"))).1 = .ok .IDLE ∧
     (get_current_state st (statusResp (stateDoc "BUSY"))).1 = .ok .UNKNOWN ∧
     (get_current_state st (statusResp (stateDoc "ATTENTION"))).1 = .ok .UNKNOWN) ∧
    ((get_state st (statusResp (stateDoc s))).1 = .ok .UNKNOWN ∧
     (get_current_state st (statusResp (stateDoc s))).1 = .ok .UNKNOWN) ∧
    ((get_state st (statusResp (.obj [("printer", .obj [])]))).1 = .ok .UNKNOWN ∧
     (get_current_state st (statusResp (.obj [("printer", .obj [])]))).1 = .ok .UNKNOWN ∧
     (get_state st (statusResp (.obj [("other", .num 1)]))).1 = .ok .UNKNOWN ∧
     (get_current_state st (statusResp (.obj [("other", .num 1)]))).1 = .ok .UNKNOWN ∧
     (get_state st .err).1 = .ok .UNKNOWN ∧
     (get_current_state st .err).1 = .ok .UNKNOWN) := by
  refine ⟨⟨rfl, rfl, rfl, rfl, rfl, rfl, rfl, rfl, rfl⟩,
          ⟨rfl, rfl, rfl, rfl, rfl, rfl, rfl, rfl, rfl⟩,
          ?_, ⟨rfl, rfl, rfl, rfl, rfl, rfl⟩⟩
  by_cases hs : s = ""
  · subst hs; exact ⟨rfl, rfl⟩
  · have e0 : (s == "") = false := beq_eq_false_iff_ne.mpr hs
    have e1 : (s == "PRINTING") = false := beq_eq_false_iff_ne.mpr h1
    have e2 : (s == "PAUSED") = false := beq_eq_false_iff_ne.mpr h2
    have e3 : (s == "FINISHED") = false := beq_eq_false_iff_ne.mpr h3
    have e4 : (s == "STOPPED") = false := beq_eq_false_iff_ne.mpr h4
    have e5 : (s == "ERROR") = false := beq_eq_false_iff_ne.mpr h5
    have e6 : (s == "IDLE") = false := beq_eq_false_iff_ne.mpr h6
    have e7 : (s == "READY") = false := beq_eq_false_iff_ne.mpr h7
    have e8 : (s == "BUSY") = false := beq_eq_false_iff_ne.mpr h8
    have e9 : (s == "ATTENTION") = false := beq_eq_false_iff_ne.mpr h9
    constructor
    · show gcodeStateFrom (some (stateDoc s)) = .ok .UNKNOWN
      simp [gcodeStateFrom, stateDoc, pyTruthy, pyDictGet, Json.hasKey,
            Json.lookup, Json.lookupD, Json.isStr,
            e0, e1, e2, e3, e4, e5, e6, e7, e8, e9]
    · show printStateFrom (some (stateDoc s)) = .ok .UNKNOWN
      simp [printStateFrom, stateDoc, pyTruthy, pyDictGet, Json.hasKey,
            Json.lookup, Json.lookupD, Json.isStr,
            e0, e1, e2, e3, e4, e5, e6, e7, e8, e9]

/-- Witness for C1 at the concrete unmapped state string "SOMETHING". -/
theorem state_mapping_spec_w :
    (get_state ⟨none, none, none⟩ (statusResp (stateDoc "SOMETHING"))).1 = .ok .UNKNOWN ∧
    (get_current_state ⟨none, none, none⟩ (statusResp (stateDoc "SOMETHING"))).1 = .ok .UNKNOWN :=
  (state_mapping_spec ⟨none, none, none⟩ "SOMETHING"
    (by decide) (by decide) (by decide) (by decide) (by decide)
    (by decide) (by decide) (by decide) (by decide)).2.2.1

/-- C2 counterexample: at the concrete initial adapter state (all three
caches empty), a job fetch receiving HTTP 204 and a job fetch suffering a
transport error produce identical outcomes — the same `None` return value
and the same resulting adapter state — so the caller of `_fetch_job_data`
cannot distinguish "no active job" from a failed fetch. -/
theorem job_fetch_distinct_cx :
    fetch_job_data ⟨none, none, none⟩
        (.ok { status := 204, contentType := "application/json", content := [], body := .null }) =
      fetch_job_data ⟨none, none, none⟩ .err := rfl

/-- C2 amended: a job fetch receiving HTTP 204 yields `None` ("no active
job") without raising, and a network/server failure on the same fetch
also yields `None`; the two outcomes coincide in return value (so they
are not distinguishable by the caller) and differ only in that 204
overwrites the cached job with `None` while a failure leaves the cache
untouched. -/
theorem job_fetch_204_amended (st : AdapterState) (ct : String)
    (c : List Nat) (b : Json) :
    fetch_job_data st (.ok { status := 204, contentType := ct, content := c, body := b }) =
        (none, { st with lastJob := none }) ∧
    fetch_job_data st .err = (none, st) :=
  ⟨rfl, rfl⟩

/-- Witness for the amended C2 at a concrete adapter state and reply. -/
theorem job_fetch_204_amended_w :
    fetch_job_data ⟨some (.obj []), some (.obj []), none⟩
        (.ok { status := 204, contentType := "application/json", content := [], body := .null }) =
        (none, ⟨some (.obj []), none, none⟩) ∧
    fetch_job_data ⟨some (.obj []), some (.obj []), none⟩ .err =
        (none, ⟨some (.obj []), some (.obj []), none⟩) :=
  job_fetch_204_amended ⟨some (.obj []), some (.obj []), none⟩ "application/json" [] .null

/-- C3: for each of `stop_print`, `pause_print`, `resume_print`: if the
job fetch yields no active job, or a job document that is falsy or lacks
an `id`, the command returns `False` and issues no action request (its
request list is just the job GET); if the job document is truthy with an
`id`, the command issues exactly one action request (DELETE
`/api/v1/job/{id}` for stop, PUT `/api/v1/job/{id}/pause` resp.
`/api/v1/job/{id}/resume` for pause/resume) and returns `True` iff that
request gets an HTTP 204 reply. -/
theorem job_commands_require_job (st : AdapterState) (jr ar : HttpResult) :
    ((fetch_job_data st jr).1 = none →
      stop_print st jr ar = (false, (fetch_job_data st jr).2, [jobGetReq]) ∧
      pause_print st jr ar = (false, (fetch_job_data st jr).2, [jobGetReq]) ∧
      resume_print st jr ar = (false, (fetch_job_data st jr).2, [jobGetReq])) ∧
    (∀ j, (fetch_job_data st jr).1 = some j →
      (pyTruthy j && j.hasKey "id") = false →
      stop_print st jr ar = (false, (fetch_job_data st jr).2, [jobGetReq]) ∧
      pause_print st jr ar = (false, (fetch_job_data st jr).2, [jobGetReq]) ∧
      resume_print st jr ar = (false, (fetch_job_data st jr).2, [jobGetReq])) ∧
    (∀ j, (fetch_job_data st jr).1 = some j →
      (pyTruthy j && j.hasKey "id") = true →
      (stop_print st jr ar).2.2 =
          [jobGetReq, ⟨.delete, "/api/v1/job/" ++ pyStr (j.lookupD "id"), []⟩] ∧
      (pause_print st jr ar).2.2 =
          [jobGetReq, ⟨.put, "/api/v1/job/" ++ pyStr (j.lookupD "id") ++ "/pause", []⟩] ∧
      (resume_print st jr ar).2.2 =
          [jobGetReq, ⟨.put, "/api/v1/job/" ++ pyStr (j.lookupD "id") ++ "/resume", []⟩] ∧
      ((stop_print st jr ar).1 = true ↔ ∃ r, ar = .ok r ∧ r.status = 204) ∧
      ((pause_print st jr ar).1 = true ↔ ∃ r, ar = .ok r ∧ r.status = 204) ∧
      ((resume_print st jr ar).1 = true ↔ ∃ r, ar = .ok r ∧ r.status = 204)) := by
  refine ⟨?_, ?_, ?_⟩
  · intro h
    refine ⟨?_, ?_, ?_⟩ <;> simp only [stop_print, pause_print, resume_print, h]
  · intro j hj hcond
    refine ⟨?_, ?_, ?_⟩ <;> simp only [stop_print, pause_print, resume_print, hj, hcond] <;>
      simp
  · intro j hj hcond
    cases ar with
    | err =>
        refine ⟨?_, ?_, ?_, ?_, ?_, ?_⟩ <;>
          simp [stop_print, pause_print, resume_print, hj, hcond]
    | ok r =>
        by_cases hle : 400 ≤ r.status
        · have h204 : ¬ r.status = 204 := by omega
          refine ⟨?_, ?_, ?_, ?_, ?_, ?_⟩ <;>
            simp [stop_print, pause_print, resume_print, hj, hcond, hle, h204]
        · refine ⟨?_, ?_, ?_, ?_, ?_, ?_⟩ <;>
            simp [stop_print, pause_print, resume_print, hj, hcond, hle]

/-- Witness for C3: with an active job `{"id": 17}` and a 204 reply to the
action request, `stop_print` succeeds. -/
theorem job_commands_require_job_w :
    (stop_print ⟨none, none, none⟩
        (.ok { status := 200, contentType := "application/json", content := [],
               body := .obj [("id", .num 17)] })
        (.ok { status := 204, contentType := "", content := [], body := .null })).1 = true :=
  ((job_commands_require_job ⟨none, none, none⟩
      (.ok { status := 200, contentType := "application/json", content := [],
             body := .obj [("id", .num 17)] })
      (.ok { status := 204, contentType := "", content := [], body := .null })).2.2
    (.obj [("id", .num 17)]) rfl rfl).2.2.2.1.mpr
    ⟨{ status := 204, contentType := "", content := [], body := .null }, rfl, rfl⟩

/-- C4: every capability-gap operation deterministically returns its
type-appropriate neutral value for every argument (`.ok false` for the
boolean commands, `.ok []` for the skipped-object list, `.ok "Unknown"`
for the descriptive strings, `.ok 0` for the counts) and never raises;
only the two accessors `vt_tray` and `ams_hub` raise `NotImplementedError`. -/
theorem capability_gap_stubs (sp sa sc : Rat) (h : Int) (l : List Int)
    (g : String ⊕ List String) (gc : Bool) (bt nt : Int) (sl : Int)
    (c1 c2 c3 : Bool) :
    set_part_fan_speed sp = .ok false ∧
    set_aux_fan_speed sa = .ok false ∧
    set_chamber_fan_speed sc = .ok false ∧
    move_z_axis h = .ok false ∧
    skip_objects l = .ok false ∧
    gcode g gc = .ok false ∧
    set_bed_temperature bt = .ok false ∧
    set_nozzle_temperature nt = .ok false ∧
    set_print_speed sl = .ok false ∧
    calibrate_printer c1 c2 c3 = .ok false ∧
    turn_light_on = .ok false ∧
    turn_light_off = .ok false ∧
    get_skipped_objects = .ok [] ∧
    get_light_state = .ok "Unknown" ∧
    print_type = .ok "Unknown" ∧
    wifi_signal = .ok "Unknown" ∧
    current_layer_num = .ok 0 ∧
    total_layer_num = .ok 0 ∧
    print_error_code = .ok 0 ∧
    vt_tray = .exn .notImplementedError ∧
    ams_hub = .exn .notImplementedError :=
  ⟨rfl, rfl, rfl, rfl, rfl, rfl, rfl, rfl, rfl, rfl, rfl, rfl, rfl, rfl,
   rfl, rfl, rfl, rfl, rfl, rfl, rfl⟩

/-- Witness for C4 at concrete arguments. -/
theorem capability_gap_stubs_w :
    set_part_fan_speed 50 = .ok false ∧
    set_aux_fan_speed 0 = .ok false ∧
    set_chamber_fan_speed 100 = .ok false ∧
    move_z_axis 10 = .ok false ∧
    skip_objects [1, 2] = .ok false ∧
    gcode (.inl "G28") true = .ok false ∧
    set_bed_temperature 60 = .ok false ∧
    set_nozzle_temperature 215 = .ok false ∧
    set_print_speed 2 = .ok false ∧
    calibrate_printer true true true = .ok false ∧
    turn_light_on = .ok false ∧
    turn_light_off = .ok false ∧
    get_skipped_objects = .ok [] ∧
    get_light_state = .ok "Unknown" ∧
    print_type = .ok "Unknown" ∧
    wifi_signal = .ok "Unknown" ∧
    current_layer_num = .ok 0 ∧
    total_layer_num = .ok 0 ∧
    print_error_code = .ok 0 ∧
    vt_tray = .exn .notImplementedError ∧
    ams_hub = .exn .notImplementedError :=
  capability_gap_stubs 50 0 100 10 [1, 2] (.inl "G28") true 60 215 2 true true true

/-- C5: `upload_file` on file bytes of length N issues a single PUT to
`/api/v1/files/usb/{filename}` whose Content-Length header is N and whose
Content-Type header is application/octet-stream; a reply with status 201
yields the path `/usb/{filename}`; any other reply status, and a
transport error, yield the empty string. -/
theorem upload_file_spec (content : List Nat) (filename : String)
    (resp : HttpResult) :
    (upload_file content filename resp).2 =
        [{ method := .put,
           path := "/api/v1/files/usb/" ++ filename,
           headers := [("Content-Length", toString content.length),
                       ("Content-Type", "application/octet-stream")] }] ∧
    (resp = .err → (upload_file content filename resp).1 = "") ∧
    (∀ r, resp = .ok r → r.status = 201 →
        (upload_file content filename resp).1 = "/usb/" ++ filename) ∧
    (∀ r, resp = .ok r → r.status ≠ 201 →
        (upload_file content filename resp).1 = "") := by
  refine ⟨?_, ?_, ?_, ?_⟩
  · cases resp with
    | err => rfl
    | ok r =>
        by_cases hle : 400 ≤ r.status
        · simp [upload_file, hle]
        · by_cases h201 : r.status = 201 <;> simp [upload_file, hle, h201]
  · rintro rfl; rfl
  · rintro r rfl h201
    simp [upload_file, h201]
  · rintro r rfl h201
    by_cases hle : 400 ≤ r.status
    · simp [upload_file, hle]
    · simp [upload_file, hle, h201]

/-- Witness for C5: uploading three bytes that get a 201 reply yields the
constructed remote path. -/
theorem upload_file_spec_w :
    (upload_file [1, 2, 3] "part.gcode"
        (.ok { status := 201, contentType := "", content := [], body := .null })).1 =
      "/usb/part.gcode" :=
  (upload_file_spec [1, 2, 3] "part.gcode"
      (.ok { status := 201, contentType := "", content := [], body := .null })).2.2.1
    { status := 201, contentType := "", content := [], body := .null } rfl rfl

/-- C6: `get_percentage` truncates (toward zero, not rounding) a present
numeric `progress` field to an integer — in particular 47.8 yields 47 —
and returns `None` when the progress field is missing, when the
containing `job` object is missing, and when the status fetch fails. -/
theorem get_percentage_trunc (st : AdapterState) (q : Rat) :
    (get_percentage st (statusResp (progressDoc q))).1 = .ok (some (ratTrunc q)) ∧
    (get_percentage st (statusResp (progressDoc (47.8 : Rat)))).1 = .ok (some 47) ∧
    (get_percentage st (statusResp
        (.obj [("job", .obj [("time_remaining", .num 5520)])]))).1 = .ok none ∧
    (get_percentage st (statusResp (.obj [("printer", .obj [])]))).1 = .ok none ∧
    (get_percentage st .err).1 = .ok none := by
  refine ⟨rfl, ?_, rfl, rfl, rfl⟩
  have hnum : (47.8 : Rat).num = 239 := by norm_num
  have hden : (47.8 : Rat).den = 5 := by norm_num
  show PyResult.ok (some (ratTrunc (47.8 : Rat))) = .ok (some 47)
  rw [ratTrunc, hnum, hden]
  decide

/-- Witness for C6 at the concrete progress value 47.8. -/
theorem get_percentage_trunc_w :
    (get_percentage ⟨none, none, none⟩ (statusResp (progressDoc (47.8 : Rat)))).1 =
      .ok (some 47) :=
  (get_percentage_trunc ⟨none, none, none⟩ (47.8 : Rat)).2.1

/-- C7: `get_camera_image` raises the explicit "no frame" `ValueError`
whenever `get_camera_frame` yields the empty string (it never returns a
placeholder image), and it returns an image only when a non-empty frame
was retrieved and the decode succeeded on exactly that frame. -/
theorem camera_image_no_frame {α : Type} (resp : HttpResult)
    (decode : String → Option α) :
    (get_camera_frame resp = "" → get_camera_image resp decode = .exn .valueError) ∧
    (∀ img, get_camera_image resp decode = .ok img →
      get_camera_frame resp ≠ "" ∧ decode (get_camera_frame resp) = some img) := by
  constructor
  · intro h
    simp [get_camera_image, h]
  · intro img h
    by_cases hf : get_camera_frame resp = ""
    · simp [get_camera_image, hf] at h
    · refine ⟨hf, ?_⟩
      have hb : (get_camera_frame resp == "") = false := beq_eq_false_iff_ne.mpr hf
      simp only [get_camera_image, hb, Bool.not_false, if_true] at h
      cases hd : decode (get_camera_frame resp) with
      | none => rw [hd] at h; simp at h
      | some x => rw [hd] at h; simp at h; rw [h]

/-- Witness for C7: a transport error yields an empty frame, and image
retrieval then raises the "no frame" `ValueError`. -/
theorem camera_image_no_frame_w :
    get_camera_image (α := Unit) .err (fun _ => none) = .exn .valueError :=
  (camera_image_no_frame .err (fun _ => none)).1 rfl

/-- C8: `get_camera_frame` returns the base64 text encoding of the raw
response body exactly when the snapshot GET returns HTTP 200 with an
image/png content type, and returns the empty string on every failure:
wrong content type, non-200 status, or transport error. -/
theorem camera_frame_spec (r : HttpResponse) :
    get_camera_frame .err = "" ∧
    (r.status = 200 → strContains r.contentType "image/png" = true →
      get_camera_frame (.ok r) = b64encode r.content) ∧
    (r.status ≠ 200 → get_camera_frame (.ok r) = "") ∧
    (strContains r.contentType "image/png" = false →
      get_camera_frame (.ok r) = "") := by
  refine ⟨rfl, ?_, ?_, ?_⟩
  · intro h200 hct
    simp [get_camera_frame, h200, hct]
  · intro h200
    by_cases hle : 400 ≤ r.status
    · simp [get_camera_frame, hle]
    · simp [get_camera_frame, hle, h200]
  · intro hct
    by_cases hle : 400 ≤ r.status
    · simp [get_camera_frame, hle]
    · simp [get_camera_frame, hle, hct]

/-- Witness for C8: a 200 image/png reply with three body bytes yields
their base64 encoding. -/
theorem camera_frame_spec_w :
    get_camera_frame
        (.ok { status := 200, contentType := "image/png", content := [1, 2, 3],
               body := .null }) =
      b64encode [1, 2, 3] :=
  (camera_frame_spec
      { status := 200, contentType := "image/png", content := [1, 2, 3],
        body := .null }).2.1 rfl rfl

/-- The value a status fetch returns does not depend on the adapter's
caches (only the cache it writes does). -/
theorem fetch_status_value (st st' : AdapterState) (resp : HttpResult) :
    (fetch_status_data st resp).1 = (fetch_status_data st' resp).1 := by
  cases resp with
  | err => rfl
  | ok r => by_cases hle : 400 ≤ r.status <;> simp [fetch_status_data, hle]

/-- The value an info fetch returns does not depend on the adapter's
caches. -/
theorem fetch_info_value (st st' : AdapterState) (resp : HttpResult) :
    (fetch_info_data st resp).1 = (fetch_info_data st' resp).1 := by
  cases resp with
  | err => rfl
  | ok r => by_cases hle : 400 ≤ r.status <;> simp [fetch_info_data, hle]

/-- C9: every telemetry getter is idempotent: a second call on the same
adapter (in the state the first call left behind) against an unchanged
remote reply returns the same result as the first — no cache or counter
on the adapter influences the returned value. -/
theorem telemetry_idempotent (st : AdapterState) (resp : HttpResult) :
    (get_state (get_state st resp).2 resp).1 = (get_state st resp).1 ∧
    (get_current_state (get_current_state st resp).2 resp).1 =
        (get_current_state st resp).1 ∧
    (get_percentage (get_percentage st resp).2 resp).1 = (get_percentage st resp).1 ∧
    (get_time (get_time st resp).2 resp).1 = (get_time st resp).1 ∧
    (get_bed_temperature (get_bed_temperature st resp).2 resp).1 =
        (get_bed_temperature st resp).1 ∧
    (get_nozzle_temperature (get_nozzle_temperature st resp).2 resp).1 =
        (get_nozzle_temperature st resp).1 ∧
    (get_print_speed (get_print_speed st resp).2 resp).1 = (get_print_speed st resp).1 ∧
    (nozzle_diameter (nozzle_diameter st resp).2 resp).1 = (nozzle_diameter st resp).1 :=
  ⟨congrArg gcodeStateFrom (fetch_status_value _ _ _),
   congrArg printStateFrom (fetch_status_value _ _ _),
   congrArg percentageFrom (fetch_status_value _ _ _),
   congrArg timeFrom (fetch_status_value _ _ _),
   congrArg bedTempFrom (fetch_status_value _ _ _),
   congrArg nozzleTempFrom (fetch_status_value _ _ _),
   congrArg printSpeedFrom (fetch_status_value _ _ _),
   congrArg nozzleDiameterFrom (fetch_info_value _ _ _)⟩

/-- Witness for C9 at a concrete state and reply. -/
theorem telemetry_idempotent_w :
    (get_state (get_state ⟨none, none, none⟩ (statusResp (stateDoc "PRINTING"))).2
        (statusResp (stateDoc "PRINTING"))).1 =
      (get_state ⟨none, none, none⟩ (statusResp (stateDoc "PRINTING"))).1 :=
  (telemetry_idempotent ⟨none, none, none⟩ (statusResp (stateDoc "PRINTING"))).1

/-- C10: `nozzle_type` always returns `NozzleType.STAINLESS_STEEL` for
every adapter state, without raising and without issuing any HTTP
request (and the adapter state is left unchanged). -/
theorem nozzle_type_constant (st : AdapterState) :
    nozzle_type st = (.ok NozzleType.STAINLESS_STEEL, st, []) :=
  rfl

/-- Witness for C10 at the initial adapter state. -/
theorem nozzle_type_constant_w :
    nozzle_type ⟨none, none, none⟩ =
      (.ok NozzleType.STAINLESS_STEEL, ⟨none, none, none⟩, []) :=
  nozzle_type_constant ⟨none, none, none⟩
